import Mathlib

/-!
Verification of the QuickQanava repository topology-engine specification.

The `gtpo` namespace embeds the generic graph-topology engine (nodes, edges,
nestable groups, grouping and ungrouping, adjacent-edge maintenance).  The
engine implementation (`gtpo::GenGraph`, `gtpo::GenGroup`) is not among the
available sources — only its test suite `GTpo/tests/gtpoGroups.cpp` is — so
the engine operations are modelled from the specification's words and checked
against the behaviour the test suite pins down.

The `qan` namespace embeds `qan::Style` from `src/qanStyle.h`, and the `qgl`
namespace embeds `qgl::Line` from `QuickGeoGL/src/qglLine.h`; both of those
headers are available sources, so those definitions are direct translations.
-/

namespace gtpo

/-- Modelled from the spec: the single error kind, `TopologyError`
(`gtpo::bad_topology_error` in the test suite), raised for any precondition
violation on handles or membership; the engine source is missing. -/
inductive TopologyError where
  | topologyError : TopologyError
deriving DecidableEq

/-- Modelled from the spec: a directed edge `{ id, source, target }`; endpoints
are entity identifiers (node or group); the engine source is missing. -/
structure Edge where
  eid : Nat
  src : Nat
  dst : Nat
deriving DecidableEq

/-- Modelled from the spec: a group `{ id, members, adjacentEdges }`; members
are entity identifiers (plain nodes or nested groups), `adjacentEdges` is the
incrementally maintained set of edge identifiers; the engine source is
missing. -/
structure Group where
  gid : Nat
  nodes : List Nat
  adjacentEdges : List Nat
deriving DecidableEq

/-- Modelled from the spec: the graph state `{ nodes, edges, groups }` plus the
registry's fresh-identifier counter (identifiers are never reused while the
graph is alive); the engine source is missing. -/
structure Graph where
  nodes : List Nat
  edges : List Edge
  groups : List Group
  nextId : Nat
deriving DecidableEq

/-- Modelled from the spec: a freshly constructed, empty graph. -/
def Graph.empty : Graph := ⟨[], [], [], 0⟩

/-- The list of live group identifiers. -/
def Graph.groupIds (g : Graph) : List Nat := g.groups.map Group.gid

/-- The list of live edge identifiers. -/
def Graph.edgeIds (g : Graph) : List Nat := g.edges.map Edge.eid

/-- Modelled from the spec: an observer handle is a non-owning reference; we
model it as `Option Nat` — `none` is a default-constructed (never-created)
weak handle, `some i` refers to entity `i` and is valid exactly while `i` is
live. -/
abbrev Handle := Option Nat

/-- Modelled from the spec: validity of a handle used where a groupable entity
(plain node or group) is required: the referenced entity must be live. -/
def Graph.validNodeHandle (g : Graph) (h : Handle) : Bool :=
  match h with
  | none => false
  | some i => g.nodes.contains i || g.groupIds.contains i

/-- Modelled from the spec: validity of a handle used where a live group is
required. -/
def Graph.validGroupHandle (g : Graph) (h : Handle) : Bool :=
  match h with
  | none => false
  | some i => g.groupIds.contains i

/-- Modelled from the spec: handle expiry — a handle reports expired when it is
default-constructed or its entity is no longer in any live set. -/
def Graph.expired (g : Graph) (h : Handle) : Bool :=
  match h with
  | none => true
  | some i =>
      !(g.nodes.contains i || g.groupIds.contains i || g.edgeIds.contains i)

/-- Modelled from the spec: the identifiers of the edges incident to entity
`m` (as source or target). -/
def Graph.incidentEdges (g : Graph) (m : Nat) : List Nat :=
  (g.edges.filter (fun e => e.src == m || e.dst == m)).map Edge.eid

/-- The other endpoint of edge `e` as seen from entity `m`. -/
def Edge.otherEnd (e : Edge) (m : Nat) : Nat :=
  if e.src == m then e.dst else e.src

/-- Append each element of `xs` to `s` when not already present (set-like
insertion used by the adjacency-maintenance algorithm). -/
def addMissing (s : List Nat) (xs : List Nat) : List Nat :=
  xs.foldl (fun acc x => if acc.contains x then acc else acc ++ [x]) s

/-- Modelled from the spec: `createNode` always succeeds and registers a node
with a fresh identifier (the new node's identifier is the pre-call `nextId`).
-/
def Graph.createNode (g : Graph) : Graph :=
  { g with nodes := g.nodes ++ [g.nextId], nextId := g.nextId + 1 }

/-- Modelled from the spec: `createGroup` always succeeds and registers an
empty group with a fresh identifier (the pre-call `nextId`). -/
def Graph.createGroup (g : Graph) : Graph :=
  { g with groups := g.groups ++ [⟨g.nextId, [], []⟩], nextId := g.nextId + 1 }

/-- Adjacency maintenance on edge creation: a group receives the new edge in
its adjacent-edge set when either endpoint is one of its current members. -/
def groupAddEdge (sa sb eid : Nat) (gr : Group) : Group :=
  if gr.nodes.contains sa || gr.nodes.contains sb then
    { gr with adjacentEdges := gr.adjacentEdges ++ [eid] }
  else gr

/-- Modelled from the spec: `createEdge(source, target)` fails with a topology
error if either endpoint handle is invalid; otherwise it creates a directed
edge (identifier: the pre-call `nextId`) and adds it to the adjacent-edge set
of every group having a current member among the endpoints.  On failure the
graph is returned unchanged. -/
def Graph.createEdge (g : Graph) (a b : Handle) : Graph × Option TopologyError :=
  match a, b with
  | some sa, some sb =>
      if g.validNodeHandle (some sa) && g.validNodeHandle (some sb) then
        ({ g with
            edges := g.edges ++ [⟨g.nextId, sa, sb⟩],
            groups := g.groups.map (groupAddEdge sa sb g.nextId),
            nextId := g.nextId + 1 }, none)
      else (g, some .topologyError)
  | _, _ => (g, some .topologyError)

/-- Adjacency maintenance on edge removal: the removed edge is evicted
unconditionally from a group's adjacent-edge set. -/
def groupEvictEdge (eid : Nat) (gr : Group) : Group :=
  { gr with adjacentEdges := gr.adjacentEdges.filter (· ≠ eid) }

/-- Modelled from the spec: `removeEdge(source, target)` fails with a topology
error if no such edge exists; otherwise it removes the (first) edge with those
endpoints from the edge set and evicts it unconditionally from every group's
adjacent-edge set.  On failure the graph is returned unchanged. -/
def Graph.removeEdge (g : Graph) (a b : Handle) : Graph × Option TopologyError :=
  match a, b with
  | some sa, some sb =>
      match g.edges.find? (fun e => e.src == sa && e.dst == sb) with
      | some e =>
          ({ g with
              edges := g.edges.filter (fun e2 => e2.eid ≠ e.eid),
              groups := g.groups.map (groupEvictEdge e.eid) },
            none)
      | none => (g, some .topologyError)
  | _, _ => (g, some .topologyError)

/-- Modelled from the spec: `removeGroup` fails with a topology error if the
handle is expired; otherwise it ungroups all current members and destroys the
group.  On failure the graph is returned unchanged. -/
def Graph.removeGroup (g : Graph) (h : Handle) : Graph × Option TopologyError :=
  match h with
  | some gi =>
      if g.validGroupHandle (some gi) then
        ({ g with groups := g.groups.filter (fun gr => gr.gid ≠ gi) }, none)
      else (g, some .topologyError)
  | none => (g, some .topologyError)

/-- Adjacency maintenance on member addition: the group with identifier `gi`
receives the new member `ni` and every edge of `inc` (the edges incident to
`ni`) not already present in its adjacent-edge set. -/
def groupInsertMember (gi ni : Nat) (inc : List Nat) (gr : Group) : Group :=
  if gr.gid == gi then
    { gr with
        nodes := gr.nodes ++ [ni],
        adjacentEdges := addMissing gr.adjacentEdges inc }
  else gr

/-- Modelled from the spec: `groupNode(group, entity)` fails with a topology
error if either handle is expired or default-constructed; otherwise it adds
the entity (plain node or group) to the group's membership and adds every
edge incident to the entity to the group's adjacent-edge set when not already
present.  On failure the graph is returned unchanged. -/
def Graph.groupNode (g : Graph) (gh nh : Handle) : Graph × Option TopologyError :=
  match gh, nh with
  | some gi, some ni =>
      if g.validGroupHandle (some gi) && g.validNodeHandle (some ni) then
        ({ g with
            groups := g.groups.map (groupInsertMember gi ni (g.incidentEdges ni)) },
          none)
      else (g, some .topologyError)
  | _, _ => (g, some .topologyError)

/-- Adjacency maintenance on member removal: every edge incident to the
removed member `ni` is retained iff its other endpoint is still among
`newMembers`; edges not incident to `ni` are untouched. -/
def adjAfterRemove (g : Graph) (ni : Nat) (newMembers adj : List Nat) : List Nat :=
  adj.filter (fun eid =>
    if (g.incidentEdges ni).contains eid then
      match g.edges.find? (fun e => e.eid == eid) with
      | some e => newMembers.contains (e.otherEnd ni)
      | none => false
    else true)

/-- Adjacency maintenance on member removal, per group: the group with
identifier `gi` loses the member `ni` and re-evaluates the edges incident to
`ni` against the remaining members. -/
def groupEraseMember (g : Graph) (gi ni : Nat) (gr : Group) : Group :=
  if gr.gid == gi then
    { gr with
        nodes := gr.nodes.erase ni,
        adjacentEdges := adjAfterRemove g ni (gr.nodes.erase ni) gr.adjacentEdges }
  else gr

/-- Modelled from the spec: `ungroupNode(group, entity)` fails with a topology
error if either handle is invalid, or if the entity is not currently a member
of the group (membership is an always-checked precondition); otherwise it
removes the entity from the membership and, for every edge incident to the
removed entity, retains the edge in the adjacent-edge set iff its other
endpoint is still a current member, evicting it otherwise.  On failure the
graph is returned unchanged. -/
def Graph.ungroupNode (g : Graph) (gh nh : Handle) : Graph × Option TopologyError :=
  match gh, nh with
  | some gi, some ni =>
      if g.validGroupHandle (some gi) && g.validNodeHandle (some ni) then
        match g.groups.find? (fun gr => gr.gid == gi) with
        | some gr0 =>
            if gr0.nodes.contains ni then
              ({ g with groups := g.groups.map (groupEraseMember g gi ni) },
                none)
            else (g, some .topologyError)
        | none => (g, some .topologyError)
      else (g, some .topologyError)
  | _, _ => (g, some .topologyError)

/-- Modelled from the spec: `clear()` removes all edges, all groups and all
nodes; every previously issued handle becomes expired; identifiers are not
reused. -/
def Graph.clear (g : Graph) : Graph :=
  { g with nodes := [], edges := [], groups := [] }

/-- Modelled from the spec: `getNodeCount` reflects live-set cardinality. -/
def Graph.getNodeCount (g : Graph) : Nat := g.nodes.length

/-- Modelled from the spec: `getEdgeCount` reflects live-set cardinality. -/
def Graph.getEdgeCount (g : Graph) : Nat := g.edges.length

/-- Modelled from the spec: `getGroupCount` reflects live-set cardinality. -/
def Graph.getGroupCount (g : Graph) : Nat := g.groups.length

/-- Modelled from the spec: a group's `getNodeCount` (member count) — a nested
group counts as one member. -/
def Group.getNodeCount (gr : Group) : Nat := gr.nodes.length

/-- Modelled from the spec: a group's `getAdjacentEdges` read-only view. -/
def Group.getAdjacentEdges (gr : Group) : List Nat := gr.adjacentEdges

/-- The public mutation operations of the Graph, reified for reasoning about
operation sequences. -/
inductive Op where
  | opCreateNode : Op
  | opCreateGroup : Op
  | opCreateEdge (a b : Handle) : Op
  | opRemoveEdge (a b : Handle) : Op
  | opRemoveGroup (h : Handle) : Op
  | opGroupNode (gh nh : Handle) : Op
  | opUngroupNode (gh nh : Handle) : Op
  | opClear : Op
deriving DecidableEq

/-- One public operation applied to a graph state: the resulting state together
with the topology error it raised, if any. -/
def Graph.step (g : Graph) : Op → Graph × Option TopologyError
  | .opCreateNode => (g.createNode, none)
  | .opCreateGroup => (g.createGroup, none)
  | .opCreateEdge a b => g.createEdge a b
  | .opRemoveEdge a b => g.removeEdge a b
  | .opRemoveGroup h => g.removeGroup h
  | .opGroupNode gh nh => g.groupNode gh nh
  | .opUngroupNode gh nh => g.ungroupNode gh nh
  | .opClear => (g.clear, none)

/-- Run a sequence of operations; the `Bool` is `true` iff no operation raised
a topology error. -/
def Graph.runOps : Graph → List Op → Graph × Bool
  | g, [] => (g, true)
  | g, op :: ops =>
      let s := g.step op
      let r := s.1.runOps ops
      (r.1, s.2.isNone && r.2)

/-- The first group of the graph (the one created first among those live),
when any. -/
def Graph.firstGroup (g : Graph) : Option Group := g.groups.head?

end gtpo

namespace qan

/-- `qan::Style` from `src/qanStyle.h`: the observable state relevant to the
`name` property is the single `QString _name` field (modelled as `String`). -/
structure Style where
  name : String
deriving DecidableEq

/-- `qan::Style::setName` from `src/qanStyle.h` line 73:
`if ( name != _name ) { _name = name; emit nameChanged( ); }`.
The returned `Bool` records whether the `nameChanged` signal was emitted. -/
def Style.setName (s : Style) (x : String) : Style × Bool :=
  if x ≠ s.name then ({ s with name := x }, true) else (s, false)

/-- `qan::Style::getName` from `src/qanStyle.h` line 74. -/
def Style.getName (s : Style) : String := s.name

end qan

namespace qgl

/-- `qreal` (a C++ `double`) as used by `qgl::Line`: the setters and getters
only store and return widths and coordinates, with no arithmetic, so exact
rationals model the storage faithfully. -/
abbrev Qreal := Rat

/-- A `QColor` value as stored by `qgl::Line::_color` (RGBA components). -/
structure Color where
  r : Nat
  g : Nat
  b : Nat
  a : Nat
deriving DecidableEq

/-- The `LineDirtyFlag` enumerators of `qgl::Line` (`qglLine.h`). -/
def CleanFlag : Nat := 0

/-- `P1Dirty = 4` from the `LineDirtyFlag` enum in `qglLine.h`. -/
def P1Dirty : Nat := 4

/-- `P2Dirty = 8` from the `LineDirtyFlag` enum in `qglLine.h`. -/
def P2Dirty : Nat := 8

/-- `WidthDirty = 16` from the `LineDirtyFlag` enum in `qglLine.h`. -/
def WidthDirty : Nat := 16

/-- `ColorDirty = 32` from the `LineDirtyFlag` enum in `qglLine.h`. -/
def ColorDirty : Nat := 32

/-- `qgl::Line` from `QuickGeoGL/src/qglLine.h`: the `QLineF _line` (stored as
its two endpoints), `_lineWidth`, `_color` and the `_dirtyFlags` bitmask. -/
structure Line where
  p1 : Qreal × Qreal
  p2 : Qreal × Qreal
  lineWidth : Qreal
  color : Color
  dirtyFlags : Nat
deriving DecidableEq

/-- `qgl::Line::getP1`. -/
def Line.getP1 (l : Line) : Qreal × Qreal := l.p1

/-- `qgl::Line::getP2`. -/
def Line.getP2 (l : Line) : Qreal × Qreal := l.p2

/-- `qgl::Line::getColor`. -/
def Line.getColor (l : Line) : Color := l.color

/-- `qgl::Line::getLineWidth` (`qglLine.h` line 74). -/
def Line.getLineWidth (l : Line) : Qreal := l.lineWidth

/-- `qgl::Line::setDirty` (`qglLine.h` line 113): `_dirtyFlags |= flag`. -/
def Line.setDirty (l : Line) (flag : Nat) : Line :=
  { l with dirtyFlags := l.dirtyFlags ||| flag }

/-- `qgl::Line::isDirty` (`qglLine.h` line 111): `_dirtyFlags & flag` read as
a boolean. -/
def Line.isDirty (l : Line) (flag : Nat) : Bool :=
  l.dirtyFlags &&& flag != 0

/-- `qgl::Line::setLineWidth` (`qglLine.h` line 75):
`_lineWidth = lineWidth; setDirty(WidthDirty); emit lineWidthChanged(); update();`
— unconditional, with no equality guard.  The emitted signal and the
scene-graph `update()` call do not touch the fields modelled here. -/
def Line.setLineWidth (l : Line) (w : Qreal) : Line :=
  Line.setDirty { l with lineWidth := w } WidthDirty

end qgl

namespace gtpo

/-- Scenario C of the spec (test `GTpoGroups.adjacentEdges`): five nodes
n1..n5 (identifiers 0..4), edges e1(n1→n2)=5, e2(n1→n3)=6, e3(n2→n4)=7,
e4(n3→n5)=8, e5(n4→n3)=9, then a group g1 (identifier 10) receiving members
n3, n4, n5. -/
def scenCOps : List Op :=
  [.opCreateNode, .opCreateNode, .opCreateNode, .opCreateNode, .opCreateNode,
   .opCreateEdge (some 0) (some 1),
   .opCreateEdge (some 0) (some 2),
   .opCreateEdge (some 1) (some 3),
   .opCreateEdge (some 2) (some 4),
   .opCreateEdge (some 3) (some 2),
   .opCreateGroup,
   .opGroupNode (some 10) (some 2),
   .opGroupNode (some 10) (some 3),
   .opGroupNode (some 10) (some 4)]

/-- The graph reached by scenario C. -/
def scenC : Graph := (Graph.empty.runOps scenCOps).1

/-- g1's adjacent-edge set in scenario C, before ungrouping. -/
def scenCAdj : List Nat :=
  (scenC.firstGroup.map Group.getAdjacentEdges).getD []

/-- Scenario C after `ungroupNode(g1, n4)` (n4 has identifier 3). -/
def scenCAfter : Graph × Option TopologyError :=
  scenC.ungroupNode (some 10) (some 3)

/-- g1's adjacent-edge set in scenario C, after ungrouping n4. -/
def scenCAfterAdj : List Nat :=
  (scenCAfter.1.firstGroup.map Group.getAdjacentEdges).getD []

/-- Scenario D of the spec (test `GTpoGroups.adjacentEdgesSimple`): two nodes
n1, n2 (identifiers 0, 1) grouped into g1 (identifier 2), no edges yet. -/
def scenDOps : List Op :=
  [.opCreateNode, .opCreateNode, .opCreateGroup,
   .opGroupNode (some 2) (some 0), .opGroupNode (some 2) (some 1)]

/-- The graph reached by scenario D. -/
def scenD : Graph := (Graph.empty.runOps scenDOps).1

/-- Adjacent-edge count of scenario D's group in graph `g`. -/
def scenDAdjSize (g : Graph) : Nat :=
  ((g.firstGroup.map Group.getAdjacentEdges).getD []).length

/-- Whether an operation is one of `createGroup` / `removeGroup` (the
operations Scenario A sequences are made of). -/
def Op.isGroupOp : Op → Bool
  | .opCreateGroup => true
  | .opRemoveGroup _ => true
  | _ => false

/-- A small graph with one empty group (identifier 0) and one plain node
(identifier 1), used to instantiate precondition theorems. -/
def gOneGroupOneNode : Graph := Graph.empty.createGroup.createNode

/-- A graph with an empty group (identifier 0) and a group (identifier 1)
already holding three members, used to instantiate the nested-group
theorem. -/
def gNested : Graph := ⟨[5, 6, 7], [], [⟨0, [], []⟩, ⟨1, [5, 6, 7], []⟩], 8⟩

/-- The graph of scenario D after `createEdge(n1, n2)` (edge identifier 3). -/
def scenDWithEdge : Graph := (scenD.createEdge (some 0) (some 1)).1

/-- Registry identifier discipline for groups: the live group identifiers are
pairwise distinct, and all of them were issued by the counter. -/
def gidInv (g : Graph) : Prop :=
  g.groupIds.Nodup ∧ ∀ i ∈ g.groupIds, i < g.nextId

end gtpo

/-- C1: in scenario C (nodes n1..n5 = 0..4, edges e1=5, e2=6, e3=7, e4=8,
e5=9, group g1 = 10 with members n3, n4, n5), no operation errors; g1's
adjacent-edge set is exactly {e2, e3, e4, e5} (size 4); after
`ungroupNode(g1, n4)` the call succeeds and the set becomes {e2, e4, e5}
(size 3): e3 is evicted because its other endpoint n2 is not a member, while
e5 is retained because its other endpoint n3 is still a member. -/
theorem gtpo_adjacentEdges_scenarioC :
    (gtpo.Graph.empty.runOps gtpo.scenCOps).2 = true ∧
    gtpo.scenCAdj.length = 4 ∧
    (6 ∈ gtpo.scenCAdj ∧ 7 ∈ gtpo.scenCAdj ∧
      8 ∈ gtpo.scenCAdj ∧ 9 ∈ gtpo.scenCAdj) ∧
    gtpo.scenCAfter.2 = none ∧
    gtpo.scenCAfterAdj.length = 3 ∧
    (6 ∈ gtpo.scenCAfterAdj ∧ 8 ∈ gtpo.scenCAfterAdj ∧
      9 ∈ gtpo.scenCAfterAdj ∧ 7 ∉ gtpo.scenCAfterAdj) := by
  decide

/-- C7: after `clear()` the node, edge and group counts are all zero and every
handle — default-constructed or referring to any previously issued entity —
reports expired. -/
theorem gtpo_clear_postcondition (g : gtpo.Graph) :
    g.clear.getNodeCount = 0 ∧ g.clear.getEdgeCount = 0 ∧
    g.clear.getGroupCount = 0 ∧
    ∀ h : gtpo.Handle, g.clear.expired h = true := by
  refine ⟨rfl, rfl, rfl, ?_⟩
  intro h
  cases h <;>
    simp [gtpo.Graph.clear, gtpo.Graph.expired, gtpo.Graph.groupIds,
      gtpo.Graph.edgeIds]

/-- Setting a bit with `|||` makes the corresponding `&&&` mask nonzero. -/
lemma or_and_mask_ne_zero (x : Nat) : (x ||| 16) &&& 16 ≠ 0 := by
  intro h
  have h4 : ((x ||| 16) &&& 16).testBit 4 = true := by
    simp only [Nat.testBit_and, Nat.testBit_or]
    have h16 : (16 : Nat).testBit 4 = true := by decide
    simp [h16]
  rw [h] at h4
  simp at h4

/-- C9: `qan::Style::setName` is guarded and idempotent — after `setName x`
the stored name is `x`; `nameChanged` is emitted iff `x` differed from the
current name; when `x` equals the current name the call is a complete no-op;
and a second `setName x` right after a first one changes nothing and emits
nothing, so two successive calls are observationally one. -/
theorem qan_setName_guarded_idempotent (s : qan.Style) (x : String) :
    (s.setName x).1.getName = x ∧
    ((s.setName x).2 = true ↔ x ≠ s.name) ∧
    (x = s.name → s.setName x = (s, false)) ∧
    (s.setName x).1.setName x = ((s.setName x).1, false) := by
  by_cases hx : x = s.name
  · subst hx
    simp [qan.Style.setName, qan.Style.getName]
  · simp [qan.Style.setName, qan.Style.getName, hx]

/-- Witness for C9 at concrete styles: the no-op branch at equal names and
the mutating branch at a fresh name. -/
theorem qan_setName_guarded_idempotent_witness :
    (qan.Style.mk "a").setName "a" = (qan.Style.mk "a", false) ∧
    ((qan.Style.mk "a").setName "b").1.getName = "b" :=
  ⟨(qan_setName_guarded_idempotent ⟨"a"⟩ "a").2.2.1 rfl,
   (qan_setName_guarded_idempotent ⟨"a"⟩ "b").1⟩

/-- C10: `qgl::Line::setLineWidth w` stores exactly `w` (the getter returns
it), sets the `WidthDirty` flag, and leaves the color, p1 and p2 untouched;
the setter has no equality guard, so in particular re-setting the current
width still marks `WidthDirty`. -/
theorem qgl_setLineWidth_frame (l : qgl.Line) (w : qgl.Qreal) :
    (l.setLineWidth w).getLineWidth = w ∧
    (l.setLineWidth w).isDirty qgl.WidthDirty = true ∧
    (l.setLineWidth w).getColor = l.getColor ∧
    (l.setLineWidth w).getP1 = l.getP1 ∧
    (l.setLineWidth w).getP2 = l.getP2 ∧
    (l.setLineWidth l.lineWidth).isDirty qgl.WidthDirty = true := by
  refine ⟨rfl, ?_, rfl, rfl, rfl, ?_⟩ <;>
    simp [qgl.Line.setLineWidth, qgl.Line.isDirty, qgl.Line.setDirty,
      qgl.WidthDirty, or_and_mask_ne_zero]

/-- C2: adjacent-edge maintenance on edge creation and removal — a successful
`createEdge(a, b)` adds the new edge to the adjacent-edge set of every group
with a current member among `a`, `b`; `removeEdge` evicts the removed edge
from every group's adjacent-edge set; and concretely, in scenario D (group
g1 = 2 containing exactly n1 = 0 and n2 = 1), the adjacent-edge count goes
0 → 1 → 0 across `createEdge(n1, n2)` and `removeEdge(n1, n2)`. -/
theorem gtpo_edge_adjacency_maintenance :
    (∀ (g : gtpo.Graph) (a b : Nat),
      (g.validNodeHandle (some a) && g.validNodeHandle (some b)) = true →
      ∀ gr ∈ g.groups, (gr.nodes.contains a || gr.nodes.contains b) = true →
        ∃ gr' ∈ (g.createEdge (some a) (some b)).1.groups,
          gr'.gid = gr.gid ∧ g.nextId ∈ gr'.adjacentEdges) ∧
    (∀ (g : gtpo.Graph) (a b : Nat) (e : gtpo.Edge),
      g.edges.find? (fun e2 => e2.src == a && e2.dst == b) = some e →
      ∀ gr' ∈ (g.removeEdge (some a) (some b)).1.groups,
        e.eid ∉ gr'.adjacentEdges) ∧
    ((gtpo.Graph.empty.runOps gtpo.scenDOps).2 = true ∧
      gtpo.scenDAdjSize gtpo.scenD = 0 ∧
      (gtpo.scenD.createEdge (some 0) (some 1)).2 = none ∧
      gtpo.scenDAdjSize gtpo.scenDWithEdge = 1 ∧
      (gtpo.scenDWithEdge.removeEdge (some 0) (some 1)).2 = none ∧
      gtpo.scenDAdjSize (gtpo.scenDWithEdge.removeEdge (some 0) (some 1)).1 = 0) := by
  refine ⟨?_, ?_, by decide⟩
  · intro g a b hv gr hgr hcond
    have hcond2 : a ∈ gr.nodes ∨ b ∈ gr.nodes := by simpa using hcond
    simp only [gtpo.Graph.createEdge, hv, if_true]
    refine ⟨_, List.mem_map_of_mem _ hgr, ?_⟩
    simp [gtpo.groupAddEdge, hcond2]
  · intro g a b e hfind gr' hmem
    simp only [gtpo.Graph.removeEdge, hfind] at hmem
    obtain ⟨gr, _, rfl⟩ := List.mem_map.1 hmem
    simp [gtpo.groupEvictEdge]

/-- Witness for C2 in scenario D: the created edge (identifier 3) lands in
g1's adjacent-edge set, and after `removeEdge` it is absent from the
resulting group's set. -/
theorem gtpo_edge_adjacency_maintenance_witness :
    (∃ gr' ∈ (gtpo.scenD.createEdge (some 0) (some 1)).1.groups,
        gr'.gid = (2 : Nat) ∧ (3 : Nat) ∈ gr'.adjacentEdges) ∧
    (3 : Nat) ∉ (⟨2, [0, 1], []⟩ : gtpo.Group).adjacentEdges := by
  constructor
  · exact gtpo_edge_adjacency_maintenance.1 gtpo.scenD 0 1 (by decide)
      ⟨2, [0, 1], []⟩ (by decide) (by decide)
  · exact gtpo_edge_adjacency_maintenance.2.1 gtpo.scenDWithEdge 0 1
      ⟨3, 0, 1⟩ (by decide) ⟨2, [0, 1], []⟩ (by decide)

/-- C8: a failing operation leaves the graph unchanged — for every state and
every public operation, if the operation raises a topology error then the
resulting state equals the pre-call state. -/
theorem gtpo_failed_op_unchanged (g : gtpo.Graph) (op : gtpo.Op) :
    (g.step op).2.isSome = true → (g.step op).1 = g := by
  intro h
  cases op with
  | opCreateNode => simp [gtpo.Graph.step] at h
  | opCreateGroup => simp [gtpo.Graph.step] at h
  | opClear => simp [gtpo.Graph.step] at h
  | opCreateEdge a b =>
      cases a <;> cases b <;>
        simp only [gtpo.Graph.step, gtpo.Graph.createEdge] <;> try rfl
      case some.some sa sb =>
        by_cases hc :
            (g.validNodeHandle (some sa) && g.validNodeHandle (some sb)) = true
        · simp [gtpo.Graph.step, gtpo.Graph.createEdge, hc] at h
        · simp [hc]
  | opRemoveEdge a b =>
      cases a <;> cases b <;>
        simp only [gtpo.Graph.step, gtpo.Graph.removeEdge] <;> try rfl
      case some.some sa sb =>
        cases hfind : g.edges.find? (fun e2 => e2.src == sa && e2.dst == sb) with
        | none => simp [hfind]
        | some e => simp [gtpo.Graph.step, gtpo.Graph.removeEdge, hfind] at h
  | opRemoveGroup hh =>
      cases hh with
      | none => rfl
      | some gi =>
          by_cases hc : g.validGroupHandle (some gi) = true
          · simp [gtpo.Graph.step, gtpo.Graph.removeGroup, hc] at h
          · simp [gtpo.Graph.step, gtpo.Graph.removeGroup, hc]
  | opGroupNode gh nh =>
      cases gh <;> cases nh <;>
        simp only [gtpo.Graph.step, gtpo.Graph.groupNode] <;> try rfl
      case some.some gi ni =>
        by_cases hc :
            (g.validGroupHandle (some gi) && g.validNodeHandle (some ni)) = true
        · simp [gtpo.Graph.step, gtpo.Graph.groupNode, hc] at h
        · simp [hc]
  | opUngroupNode gh nh =>
      cases gh <;> cases nh <;>
        simp only [gtpo.Graph.step, gtpo.Graph.ungroupNode] <;> try rfl
      case some.some gi ni =>
        by_cases hc :
            (g.validGroupHandle (some gi) && g.validNodeHandle (some ni)) = true
        · cases hfind : g.groups.find? (fun gr => gr.gid == gi) with
          | none => simp [hc, hfind]
          | some gr0 =>
              by_cases hmem : ni ∈ gr0.nodes
              · simp [gtpo.Graph.step, gtpo.Graph.ungroupNode, hc, hfind,
                  hmem] at h
              · simp [hc, hfind, hmem]
        · simp [hc]

/-- Witness for C8: grouping with two default-constructed handles fails and
leaves the empty graph untouched. -/
theorem gtpo_failed_op_unchanged_witness :
    (gtpo.Graph.empty.step (.opGroupNode none none)).1 = gtpo.Graph.empty :=
  gtpo_failed_op_unchanged gtpo.Graph.empty (.opGroupNode none none) (by decide)

/-- C3: `groupNode` raises a topology error whenever the group handle or the
entity handle is expired or default-constructed (and leaves the graph
unchanged); with two valid handles it succeeds, and the addressed group's
member count grows by exactly one. -/
theorem gtpo_groupNode_spec (g : gtpo.Graph) (gh nh : gtpo.Handle) :
    (¬(g.validGroupHandle gh = true ∧ g.validNodeHandle nh = true) →
        g.groupNode gh nh = (g, some .topologyError)) ∧
    (g.validGroupHandle gh = true → g.validNodeHandle nh = true →
        (g.groupNode gh nh).2 = none ∧
        ∀ gr ∈ g.groups, gh = some gr.gid →
          ∃ gr' ∈ (g.groupNode gh nh).1.groups,
            gr'.gid = gr.gid ∧ gr'.getNodeCount = gr.getNodeCount + 1) := by
  cases gh with
  | none =>
      refine ⟨fun _ => rfl, fun hvg _ => ?_⟩
      simp [gtpo.Graph.validGroupHandle] at hvg
  | some gi =>
      cases nh with
      | none =>
          refine ⟨fun _ => ?_, fun _ hvn => ?_⟩
          · cases hv : g.validGroupHandle (some gi) <;>
              simp [gtpo.Graph.groupNode, gtpo.Graph.validNodeHandle]
          · simp [gtpo.Graph.validNodeHandle] at hvn
      | some ni =>
          constructor
          · intro hn
            have hc :
                (g.validGroupHandle (some gi) &&
                  g.validNodeHandle (some ni)) = false := by
              rcases Bool.eq_false_or_eq_true (g.validGroupHandle (some gi))
                with hg1 | hg1 <;>
                rcases Bool.eq_false_or_eq_true (g.validNodeHandle (some ni))
                  with hn1 | hn1 <;> simp [hg1, hn1] at hn ⊢
            simp [gtpo.Graph.groupNode, hc]
          · intro hvg hvn
            have hc :
                (g.validGroupHandle (some gi) &&
                  g.validNodeHandle (some ni)) = true := by simp [hvg, hvn]
            refine ⟨by simp [gtpo.Graph.groupNode, hc], ?_⟩
            intro gr hgr hid
            have hgid : gr.gid = gi := by
              injection hid with h2
              exact h2.symm
            simp only [gtpo.Graph.groupNode, hc, if_true]
            refine ⟨_, List.mem_map_of_mem _ hgr, ?_⟩
            simp [gtpo.groupInsertMember, hgid, gtpo.Group.getNodeCount]

/-- Witness for C3: on a graph holding one empty group (id 0) and one node
(id 1), grouping with a default handle errors, and grouping the node into
the group succeeds with the member count moving from 0 to 1. -/
theorem gtpo_groupNode_spec_witness :
    (gtpo.gOneGroupOneNode.groupNode (some 0) none =
      (gtpo.gOneGroupOneNode, some .topologyError)) ∧
    (gtpo.gOneGroupOneNode.groupNode (some 0) (some 1)).2 = none ∧
    (∃ gr' ∈ (gtpo.gOneGroupOneNode.groupNode (some 0) (some 1)).1.groups,
      gr'.gid = (0 : Nat) ∧ gr'.getNodeCount = 0 + 1) := by
  refine ⟨(gtpo_groupNode_spec gtpo.gOneGroupOneNode (some 0) none).1
    (by decide), ?_, ?_⟩
  · exact ((gtpo_groupNode_spec gtpo.gOneGroupOneNode (some 0) (some 1)).2
      (by decide) (by decide)).1
  · exact ((gtpo_groupNode_spec gtpo.gOneGroupOneNode (some 0) (some 1)).2
      (by decide) (by decide)).2 ⟨0, [], []⟩ (by decide) rfl

/-- C4: `ungroupNode` raises a topology error when either handle is invalid,
and also — as a distinct, always-checked precondition — when both handles
are valid but the entity is not currently a member of the group; in every
failing case the graph is returned unchanged. -/
theorem gtpo_ungroupNode_precondition (g : gtpo.Graph) (gh nh : gtpo.Handle) :
    (¬(g.validGroupHandle gh = true ∧ g.validNodeHandle nh = true) →
        g.ungroupNode gh nh = (g, some .topologyError)) ∧
    (∀ gi ni gr0, gh = some gi → nh = some ni →
        g.groups.find? (fun gr => gr.gid == gi) = some gr0 →
        ni ∉ gr0.nodes →
        g.ungroupNode gh nh = (g, some .topologyError)) := by
  constructor
  · intro hn
    cases gh with
    | none => rfl
    | some gi =>
        cases nh with
        | none =>
            cases hv : g.validGroupHandle (some gi) <;>
              simp [gtpo.Graph.ungroupNode, gtpo.Graph.validNodeHandle]
        | some ni =>
            have hc :
                (g.validGroupHandle (some gi) &&
                  g.validNodeHandle (some ni)) = false := by
              rcases Bool.eq_false_or_eq_true (g.validGroupHandle (some gi))
                with hg1 | hg1 <;>
                rcases Bool.eq_false_or_eq_true (g.validNodeHandle (some ni))
                  with hn1 | hn1 <;> simp [hg1, hn1] at hn ⊢
            simp [gtpo.Graph.ungroupNode, hc]
  · intro gi ni gr0 hgh hnh hfind hmem
    subst hgh
    subst hnh
    by_cases hc :
        (g.validGroupHandle (some gi) && g.validNodeHandle (some ni)) = true
    · simp [gtpo.Graph.ungroupNode, hc, hfind, hmem]
    · simp [gtpo.Graph.ungroupNode, hc]

/-- Witness for C4: on a graph with one empty group (id 0) and one node
(id 1), ungrouping the never-grouped node fails even though both handles are
valid, and ungrouping with a default node handle fails too. -/
theorem gtpo_ungroupNode_precondition_witness :
    (gtpo.gOneGroupOneNode.ungroupNode (some 0) (some 1) =
      (gtpo.gOneGroupOneNode, some .topologyError)) ∧
    (gtpo.gOneGroupOneNode.ungroupNode (some 0) none =
      (gtpo.gOneGroupOneNode, some .topologyError)) := by
  constructor
  · exact (gtpo_ungroupNode_precondition gtpo.gOneGroupOneNode
      (some 0) (some 1)).2 0 1 ⟨0, [], []⟩ rfl rfl (by decide) (by decide)
  · exact (gtpo_ungroupNode_precondition gtpo.gOneGroupOneNode
      (some 0) none).1 (by decide)

/-- Mapping a function that preserves group identifiers over a group list
leaves the identifier list unchanged. -/
lemma map_gid_preserve (l : List gtpo.Group) (f : gtpo.Group → gtpo.Group)
    (hf : ∀ gr, (f gr).gid = gr.gid) :
    (l.map f).map gtpo.Group.gid = l.map gtpo.Group.gid := by
  rw [List.map_map]
  exact List.map_congr_left (fun gr _ => hf gr)

/-- `groupAddEdge` preserves the group identifier. -/
lemma groupAddEdge_gid (sa sb eid : Nat) (gr : gtpo.Group) :
    (gtpo.groupAddEdge sa sb eid gr).gid = gr.gid := by
  unfold gtpo.groupAddEdge
  split <;> rfl

/-- `groupEvictEdge` preserves the group identifier. -/
lemma groupEvictEdge_gid (eid : Nat) (gr : gtpo.Group) :
    (gtpo.groupEvictEdge eid gr).gid = gr.gid := rfl

/-- `groupInsertMember` preserves the group identifier. -/
lemma groupInsertMember_gid (gi ni : Nat) (inc : List Nat) (gr : gtpo.Group) :
    (gtpo.groupInsertMember gi ni inc gr).gid = gr.gid := by
  unfold gtpo.groupInsertMember
  split <;> rfl

/-- `groupEraseMember` preserves the group identifier. -/
lemma groupEraseMember_gid (g : gtpo.Graph) (gi ni : Nat) (gr : gtpo.Group) :
    (gtpo.groupEraseMember g gi ni gr).gid = gr.gid := by
  unfold gtpo.groupEraseMember
  split <;> rfl

/-- Every public operation preserves the group-identifier discipline. -/
lemma step_gidInv (g : gtpo.Graph) (op : gtpo.Op) (h : gtpo.gidInv g) :
    gtpo.gidInv (g.step op).1 := by
  obtain ⟨hnd, hlt⟩ := h
  cases op with
  | opCreateNode =>
      exact ⟨hnd, fun i hi => Nat.lt_succ_of_lt (hlt i hi)⟩
  | opCreateGroup =>
      constructor
      · simp only [gtpo.Graph.step, gtpo.Graph.createGroup, gtpo.Graph.groupIds,
          List.map_append, List.map_cons, List.map_nil] at hnd ⊢
        refine List.Nodup.append hnd (List.nodup_singleton _) ?_
        intro i hi hi1
        have := hlt i hi
        simp only [List.mem_singleton] at hi1
        omega
      · intro i hi
        simp only [gtpo.Graph.step, gtpo.Graph.createGroup, gtpo.Graph.groupIds,
          List.map_append, List.map_cons, List.map_nil, List.mem_append,
          List.mem_singleton] at hi ⊢
        rcases hi with hi | hi
        · exact Nat.lt_succ_of_lt (hlt i hi)
        · omega
  | opClear =>
      constructor <;> simp [gtpo.Graph.step, gtpo.Graph.clear, gtpo.Graph.groupIds]
  | opCreateEdge a b =>
      cases a <;> cases b <;> try exact ⟨hnd, hlt⟩
      case some.some sa sb =>
        by_cases hc :
            (g.validNodeHandle (some sa) && g.validNodeHandle (some sb)) = true
        · have hmap :
              ((g.groups.map (gtpo.groupAddEdge sa sb g.nextId)).map
                gtpo.Group.gid) = g.groups.map gtpo.Group.gid :=
            map_gid_preserve _ _ (groupAddEdge_gid sa sb g.nextId)
          simp only [gtpo.Graph.step, gtpo.Graph.createEdge, hc, if_true]
          refine ⟨?_, ?_⟩
          · simpa [gtpo.Graph.groupIds, hmap] using hnd
          · intro i hi
            simp only [gtpo.Graph.groupIds, hmap] at hi
            exact Nat.lt_succ_of_lt (hlt i hi)
        · simp only [gtpo.Graph.step, gtpo.Graph.createEdge, hc, if_false]
          exact ⟨hnd, hlt⟩
  | opRemoveEdge a b =>
      cases a <;> cases b <;> try exact ⟨hnd, hlt⟩
      case some.some sa sb =>
        cases hfind : g.edges.find? (fun e2 => e2.src == sa && e2.dst == sb) with
        | none =>
            simp only [gtpo.Graph.step, gtpo.Graph.removeEdge, hfind]
            exact ⟨hnd, hlt⟩
        | some e =>
            have hmap :
                ((g.groups.map (gtpo.groupEvictEdge e.eid)).map
                  gtpo.Group.gid) = g.groups.map gtpo.Group.gid :=
              map_gid_preserve _ _ (groupEvictEdge_gid e.eid)
            simp only [gtpo.Graph.step, gtpo.Graph.removeEdge, hfind]
            refine ⟨?_, ?_⟩
            · simpa [gtpo.Graph.groupIds, hmap] using hnd
            · intro i hi
              simp only [gtpo.Graph.groupIds, hmap] at hi
              exact hlt i hi
  | opRemoveGroup hh =>
      cases hh with
      | none => exact ⟨hnd, hlt⟩
      | some gi =>
          by_cases hc : g.validGroupHandle (some gi) = true
          · simp only [gtpo.Graph.step, gtpo.Graph.removeGroup, hc, if_true]
            have hsub :
                ((g.groups.filter (fun gr => gr.gid ≠ gi)).map gtpo.Group.gid).Sublist
                  (g.groups.map gtpo.Group.gid) :=
              (List.filter_sublist _).map _
            refine ⟨hsub.nodup hnd, ?_⟩
            intro i hi
            refine hlt i ?_
            simp only [gtpo.Graph.groupIds, List.mem_map] at hi ⊢
            obtain ⟨gr, hgr, rfl⟩ := hi
            exact ⟨gr, List.mem_of_mem_filter hgr, rfl⟩
          · simp only [gtpo.Graph.step, gtpo.Graph.removeGroup, hc, if_false]
            exact ⟨hnd, hlt⟩
  | opGroupNode gh nh =>
      cases gh <;> cases nh <;> try exact ⟨hnd, hlt⟩
      case some.some gi ni =>
        by_cases hc :
            (g.validGroupHandle (some gi) && g.validNodeHandle (some ni)) = true
        · have hmap :
              ((g.groups.map
                  (gtpo.groupInsertMember gi ni (g.incidentEdges ni))).map
                gtpo.Group.gid) = g.groups.map gtpo.Group.gid :=
            map_gid_preserve _ _ (groupInsertMember_gid gi ni _)
          simp only [gtpo.Graph.step, gtpo.Graph.groupNode, hc, if_true]
          refine ⟨?_, ?_⟩
          · simpa [gtpo.Graph.groupIds, hmap] using hnd
          · intro i hi
            simp only [gtpo.Graph.groupIds, hmap] at hi
            exact hlt i hi
        · simp only [gtpo.Graph.step, gtpo.Graph.groupNode, hc, if_false]
          exact ⟨hnd, hlt⟩
  | opUngroupNode gh nh =>
      cases gh <;> cases nh <;> try exact ⟨hnd, hlt⟩
      case some.some gi ni =>
        by_cases hc :
            (g.validGroupHandle (some gi) && g.validNodeHandle (some ni)) = true
        · cases hfind : g.groups.find? (fun gr => gr.gid == gi) with
          | none =>
              simp only [gtpo.Graph.step, gtpo.Graph.ungroupNode, hc, if_true,
                hfind]
              exact ⟨hnd, hlt⟩
          | some gr0 =>
              by_cases hmem : gr0.nodes.contains ni = true
              · have hmap :
                    ((g.groups.map (gtpo.groupEraseMember g gi ni)).map
                      gtpo.Group.gid) = g.groups.map gtpo.Group.gid :=
                  map_gid_preserve _ _ (groupEraseMember_gid g gi ni)
                simp only [gtpo.Graph.step, gtpo.Graph.ungroupNode, hc, if_true,
                  hfind, hmem]
                refine ⟨?_, ?_⟩
                · simpa [gtpo.Graph.groupIds, hmap] using hnd
                · intro i hi
                  simp only [gtpo.Graph.groupIds, hmap] at hi
                  exact hlt i hi
              · simp only [gtpo.Graph.step, gtpo.Graph.ungroupNode, hc, if_true,
                  hfind, hmem, if_false]
                exact ⟨hnd, hlt⟩
        · simp only [gtpo.Graph.step, gtpo.Graph.ungroupNode, hc, if_false]
          exact ⟨hnd, hlt⟩

/-- Running any operation sequence preserves the group-identifier
discipline. -/
lemma runOps_gidInv (ops : List gtpo.Op) :
    ∀ g : gtpo.Graph, gtpo.gidInv g → gtpo.gidInv (g.runOps ops).1 := by
  induction ops with
  | nil => intro g h; exact h
  | cons op ops ih =>
      intro g h
      exact ih (g.step op).1 (step_gidInv g op h)

/-- C5: after every sequence of `createGroup` / `removeGroup` operations on a
fresh graph, `getGroupCount()` equals the number of currently-live groups
(the cardinality of the live group-identifier set); concretely, a fresh graph
reports 0, creating two groups reports 2, and removing one reports 1. -/
theorem gtpo_groupCount_invariant :
    (∀ ops : List gtpo.Op, (∀ op ∈ ops, op.isGroupOp = true) →
        (gtpo.Graph.empty.runOps ops).1.getGroupCount =
          (gtpo.Graph.empty.runOps ops).1.groupIds.dedup.length) ∧
    (gtpo.Graph.empty.getGroupCount = 0 ∧
      (gtpo.Graph.empty.runOps [.opCreateGroup, .opCreateGroup]).1.getGroupCount
        = 2 ∧
      ((gtpo.Graph.empty.runOps
          [.opCreateGroup, .opCreateGroup]).1.removeGroup (some 0)).2 = none ∧
      ((gtpo.Graph.empty.runOps
          [.opCreateGroup, .opCreateGroup]).1.removeGroup
            (some 0)).1.getGroupCount = 1) := by
  refine ⟨?_, by decide⟩
  intro ops _
  have h := runOps_gidInv ops gtpo.Graph.empty
    ⟨List.nodup_nil, by intro i hi; simp [gtpo.Graph.groupIds,
      gtpo.Graph.empty] at hi⟩
  rw [h.1.dedup]
  simp [gtpo.Graph.getGroupCount, gtpo.Graph.groupIds]

/-- Witness for C5: the sequence create, create, remove reaches a state whose
group count equals its number of live groups. -/
theorem gtpo_groupCount_invariant_witness :
    (gtpo.Graph.empty.runOps
        [.opCreateGroup, .opCreateGroup, .opRemoveGroup (some 0)]).1.getGroupCount
      = (gtpo.Graph.empty.runOps
          [.opCreateGroup, .opCreateGroup,
            .opRemoveGroup (some 0)]).1.groupIds.dedup.length :=
  gtpo_groupCount_invariant.1
    [.opCreateGroup, .opCreateGroup, .opRemoveGroup (some 0)] (by decide)

/-- Searching a group by identifier commutes with mapping an
identifier-preserving function over the group list. -/
lemma find?_gid_map (l : List gtpo.Group) (f : gtpo.Group → gtpo.Group)
    (hf : ∀ gr, (f gr).gid = gr.gid) (gi : Nat) :
    (l.map f).find? (fun gr => gr.gid == gi) =
      (l.find? (fun gr => gr.gid == gi)).map f := by
  have hp : ((fun gr : gtpo.Group => gr.gid == gi) ∘ f) =
      (fun gr : gtpo.Group => gr.gid == gi) := by
    funext gr
    simp [Function.comp, hf]
  rw [List.find?_map, hp]

/-- C6: membership counting is non-transitive for nested groups — grouping a
group `g2` (with arbitrarily many members of its own) into an empty group
`g1` makes `g1`'s member count exactly 1, and ungrouping `g2` again restores
it to 0. -/
theorem gtpo_nested_group_counts (g : gtpo.Graph) (g1i g2i : Nat)
    (gr1 : gtpo.Group)
    (hne : g1i ≠ g2i)
    (hfind : g.groups.find? (fun gr => gr.gid == g1i) = some gr1)
    (hempty : gr1.nodes = [])
    (hvalid2 : g.validGroupHandle (some g2i) = true) :
    ((g.groupNode (some g1i) (some g2i)).2 = none) ∧
    (((g.groupNode (some g1i) (some g2i)).1.groups.find?
        (fun gr => gr.gid == g1i)).map gtpo.Group.getNodeCount = some 1) ∧
    (((g.groupNode (some g1i) (some g2i)).1.ungroupNode
        (some g1i) (some g2i)).2 = none) ∧
    ((((g.groupNode (some g1i) (some g2i)).1.ungroupNode
        (some g1i) (some g2i)).1.groups.find?
          (fun gr => gr.gid == g1i)).map gtpo.Group.getNodeCount = some 0) := by
  have hmem1 : gr1 ∈ g.groups := List.mem_of_find?_eq_some hfind
  have hgid1 : gr1.gid = g1i := by simpa using List.find?_some hfind
  have hvalid1 : g.validGroupHandle (some g1i) = true := by
    simp [gtpo.Graph.validGroupHandle, gtpo.Graph.groupIds]
    exact ⟨gr1, hmem1, hgid1⟩
  have hvn2 : g.validNodeHandle (some g2i) = true := by
    simp only [gtpo.Graph.validNodeHandle]
    simp only [gtpo.Graph.validGroupHandle] at hvalid2
    rw [hvalid2, Bool.or_true]
  have hc :
      (g.validGroupHandle (some g1i) && g.validNodeHandle (some g2i)) = true := by
    rw [hvalid1, hvn2]
    rfl
  have hfind1 :
      ((g.groups.map
          (gtpo.groupInsertMember g1i g2i (g.incidentEdges g2i))).find?
        (fun gr => gr.gid == g1i)) =
        some (gtpo.groupInsertMember g1i g2i (g.incidentEdges g2i) gr1) := by
    rw [find?_gid_map _ _ (groupInsertMember_gid g1i g2i _) g1i, hfind]
    rfl
  have hins :
      gtpo.groupInsertMember g1i g2i (g.incidentEdges g2i) gr1 =
        { gr1 with
            nodes := [g2i],
            adjacentEdges :=
              gtpo.addMissing gr1.adjacentEdges (g.incidentEdges g2i) } := by
    simp [gtpo.groupInsertMember, hgid1, hempty]
  have hmapids :
      ((g.groups.map (gtpo.groupInsertMember g1i g2i (g.incidentEdges g2i))).map
        gtpo.Group.gid) = g.groups.map gtpo.Group.gid :=
    map_gid_preserve _ _ (groupInsertMember_gid g1i g2i _)
  have hvg2 :
      gtpo.Graph.validGroupHandle
        { g with
            groups := g.groups.map
              (gtpo.groupInsertMember g1i g2i (g.incidentEdges g2i)) }
        (some g1i) = true := by
    simp only [gtpo.Graph.validGroupHandle, gtpo.Graph.groupIds]
    rw [hmapids]
    simpa only [gtpo.Graph.validGroupHandle, gtpo.Graph.groupIds] using hvalid1
  have hvn2b :
      gtpo.Graph.validNodeHandle
        { g with
            groups := g.groups.map
              (gtpo.groupInsertMember g1i g2i (g.incidentEdges g2i)) }
        (some g2i) = true := by
    simp only [gtpo.Graph.validNodeHandle, gtpo.Graph.groupIds]
    rw [hmapids]
    simpa only [gtpo.Graph.validNodeHandle, gtpo.Graph.groupIds] using hvn2
  have hc2 :
      (gtpo.Graph.validGroupHandle
          { g with
              groups := g.groups.map
                (gtpo.groupInsertMember g1i g2i (g.incidentEdges g2i)) }
          (some g1i) &&
        gtpo.Graph.validNodeHandle
          { g with
              groups := g.groups.map
                (gtpo.groupInsertMember g1i g2i (g.incidentEdges g2i)) }
          (some g2i)) = true := by
    rw [hvg2, hvn2b]
    rfl
  have hcont :
      (gtpo.groupInsertMember g1i g2i (g.incidentEdges g2i) gr1).nodes.contains
        g2i = true := by
    rw [hins]
    simp
  simp only [gtpo.Graph.groupNode, hc, if_true]
  refine ⟨trivial, ?_, ?_, ?_⟩
  · rw [hfind1, hins]
    simp [gtpo.Group.getNodeCount]
  · simp only [gtpo.Graph.ungroupNode, hc2, if_true, hfind1, hcont]
  · simp only [gtpo.Graph.ungroupNode, hc2, if_true, hfind1, hcont]
    rw [find?_gid_map _ _ (groupEraseMember_gid _ g1i g2i) g1i, hfind1]
    have hg1gid :
        (gtpo.groupInsertMember g1i g2i (g.incidentEdges g2i) gr1).gid = g1i := by
      rw [groupInsertMember_gid, hgid1]
    simp [gtpo.groupEraseMember, hg1gid, hins, hgid1, gtpo.Group.getNodeCount]

/-- Witness for C6: in a graph where group 0 is empty and group 1 already has
three members, grouping group 1 into group 0 gives group 0 member count 1
(not 3), and ungrouping restores 0. -/
theorem gtpo_nested_group_counts_witness :
    ((gtpo.gNested.groupNode (some 0) (some 1)).2 = none) ∧
    (((gtpo.gNested.groupNode (some 0) (some 1)).1.groups.find?
        (fun gr => gr.gid == 0)).map gtpo.Group.getNodeCount = some 1) ∧
    (((gtpo.gNested.groupNode (some 0) (some 1)).1.ungroupNode
        (some 0) (some 1)).2 = none) ∧
    ((((gtpo.gNested.groupNode (some 0) (some 1)).1.ungroupNode
        (some 0) (some 1)).1.groups.find?
          (fun gr => gr.gid == 0)).map gtpo.Group.getNodeCount = some 0) :=
  gtpo_nested_group_counts gtpo.gNested 0 1 ⟨0, [], []⟩ (by decide) (by decide)
    rfl (by decide)
